import Mathlib

/-!
Shallow embedding of duvholt/disk-usage-pushbullet (src/main.rs).

Floating-point ratios (f64) are modelled as exact rationals; the one place
where f64 produces a non-finite value (division by a zero total in
disk_usage) is modelled by the FpVal type below. Side effects (logging,
HTTP, environment, sleeping) are modelled as explicit inputs and flags:
each cycle of the main loop receives the outcome of the disk read and the
outcome of the push delivery as data, and the step function reports
whether the push was invoked and whether the trailing sleep was reached.
-/

/-- Configuration constant: main.rs line 93, `let treshold = 0.1`. -/
def treshold : ℚ := 0.1

/-- Configuration constant: main.rs line 94,
`Duration::from_secs(60 * 5)`, in seconds. -/
def sleep_time_secs : Nat := 60 * 5

/-- The mount point searched for in disk_usage: main.rs line 57. -/
def monitored_path : String := "/"

/-- ThrottleDecision: main.rs lines 63-69 (`should_push`). -/
def should_push (percentage : ℚ) (treshold : ℚ) (previous_percentage : ℚ) : Bool :=
  if percentage ≥ treshold then false
  else decide (⌊percentage * 100⌋ < ⌊previous_percentage * 100⌋)

/-- The JSON message built by push: main.rs lines 21-25. -/
structure Message where
  body : String
  title : String
  type : String
deriving DecidableEq

/-- Two-digit zero padding for the fractional part of a percentage. -/
def pad2 (n : Nat) : String :=
  if n < 10 then "0" ++ toString n else toString n

/-- Rust `format!("{:.2}", x)` on a nonnegative value: round to the
nearest hundredth and print two decimals. -/
def format2 (x : ℚ) : String :=
  toString (round (x * 100) / 100) ++ "." ++ pad2 ((round (x * 100)).natAbs % 100)

/-- The message sent for a given free-space ratio: main.rs lines 21-25,
body `format!("Only {:.2}% left!", percentage * 100.0)`. -/
def buildMessage (percentage : ℚ) : Message :=
  { body := "Only " ++ format2 (percentage * 100) ++ "% left!"
    title := "Low disk space"
    type := "note" }

/-- An HTTP response as far as push inspects it: its status code. -/
structure HttpResponse where
  status : Nat
deriving DecidableEq

/-- The status code compared against on main.rs line 40, StatusCode::OK. -/
def statusOK : Nat := 200

/-- The effectful collaborators of push, as data: the result of the
`PUSHBULLET_TOKEN` environment lookup (main.rs line 18) and the outcome
of sending the request carrying a given message (main.rs lines 27-38). -/
structure PushWorld where
  token : Option String
  send : Message → Except String HttpResponse

/-- Notifier: main.rs lines 16-46 (`push`). Missing token, transport
failure and non-OK status each produce an `Except.error` of the same
String kind; only status OK yields `Except.ok`. -/
def push (w : PushWorld) (percentage : ℚ) : Except String Unit :=
  match w.token with
  | none => Except.error "Unable to get PushBullet token"
  | some _ =>
    match w.send (buildMessage percentage) with
    | Except.error e => Except.error ("Unable to send push message: " ++ e)
    | Except.ok res =>
      if res.status = statusOK then Except.ok ()
      else Except.error "Got error from PushBullet"

/-- A mount as far as disk_usage inspects it: main.rs lines 51-60. -/
structure Mount where
  fs_mounted_on : String
  avail : Nat
  total : Nat

/-- Result of an f64 division of nonnegative values: a finite value, or
the non-finite results produced by a zero divisor (0/0 is NaN, x/0 for
x > 0 is infinity). -/
inductive FpVal
  | nan
  | inf
  | val (q : ℚ)
deriving DecidableEq

/-- `avail as f64 / total as f64` of main.rs line 60 for u64 operands. -/
def u64div (avail : Nat) (total : Nat) : FpVal :=
  if total = 0 then (if avail = 0 then FpVal.nan else FpVal.inf)
  else FpVal.val ((avail : ℚ) / (total : ℚ))

/-- UsageSource: main.rs lines 48-61 (`disk_usage`), given the OS mount
listing as data. -/
def disk_usage (mounts : Except String (List Mount)) : Except String FpVal :=
  match mounts with
  | Except.error e => Except.error ("Sys mount error: " ++ e)
  | Except.ok ms =>
    match ms.find? (fun m => m.fs_mounted_on == monitored_path) with
    | some m => Except.ok (u64div m.avail m.total)
    | none => Except.error "Unable to find root mount"

/-- Result of check_disk_usage together with whether push was invoked. -/
structure CheckResult where
  result : Except String ℚ
  pushed : Bool

/-- Per-cycle check: main.rs lines 71-86 (`check_disk_usage`), given the
outcome push would produce if invoked. The `?` on line 83 propagates a
push failure as the function's own error. -/
def check_disk_usage (percentage : ℚ) (treshold : ℚ) (previous_percentage : ℚ)
    (pushOutcome : Except String Unit) : CheckResult :=
  if should_push percentage treshold previous_percentage then
    match pushOutcome with
    | Except.ok _ => { result := Except.ok percentage, pushed := true }
    | Except.error e => { result := Except.error e, pushed := true }
  else { result := Except.ok percentage, pushed := false }

/-- The effectful inputs of one iteration of the main loop: the result
of disk_usage and the outcome push would produce if invoked. -/
structure CycleInput where
  read : Except String ℚ
  pushOutcome : Except String Unit

/-- Observable outcome of one iteration of the main loop: the value of
`previous_percentage` after the iteration, whether the iteration reached
the `thread::sleep` on line 118, and whether push was invoked. -/
structure CycleResult where
  previous : ℚ
  slept : Bool
  pushed : Bool
deriving DecidableEq

/-- One iteration of the loop of main.rs lines 100-119. On a read error
the `continue` on line 106 skips the sleep on line 118; on a successful
read, `previous_percentage` is reassigned (line 112) only in the `Ok`
branch of the match on check_disk_usage. -/
def loopStep (treshold : ℚ) (previous_percentage : ℚ) (input : CycleInput) : CycleResult :=
  match input.read with
  | Except.error _ => { previous := previous_percentage, slept := false, pushed := false }
  | Except.ok percentage =>
    let c := check_disk_usage percentage treshold previous_percentage input.pushOutcome
    match c.result with
    | Except.ok p => { previous := p, slept := true, pushed := c.pushed }
    | Except.error _ => { previous := previous_percentage, slept := true, pushed := c.pushed }

/-- The `previous_percentage` state threaded across a finite run of loop
iterations (main.rs lines 96, 100-119); the seed on line 96 is 1.0. -/
def run (treshold : ℚ) (previous_percentage : ℚ) : List CycleInput → ℚ
  | [] => previous_percentage
  | i :: is => run treshold (loopStep treshold previous_percentage i).previous is

/-- The ratios successfully read during a run, in order. -/
def okReads : List CycleInput → List ℚ
  | [] => []
  | i :: is =>
    match i.read with
    | Except.ok p => p :: okReads is
    | Except.error _ => okReads is

/-- C3: for current strictly below the threshold, should_push is true
exactly when the integer percentage of current is strictly below the
integer percentage of previous. -/
theorem should_push_below_iff (p t prev : ℚ) (h : p < t) :
    should_push p t prev = true ↔ ⌊p * 100⌋ < ⌊prev * 100⌋ := by
  unfold should_push
  rw [if_neg (not_le.mpr h)]
  exact decide_eq_true_iff

/-- Witness for C3 at current = 0, threshold = 1, previous = 1. -/
theorem should_push_below_iff_w :
    (0 : ℚ) < 1 ∧
      (should_push 0 1 1 = true ↔ ⌊(0 : ℚ) * 100⌋ < ⌊(1 : ℚ) * 100⌋) :=
  ⟨by decide, should_push_below_iff 0 1 1 (by decide)⟩

/-- C4: for current at or above the threshold, should_push is false for
any previous; equality with the threshold counts as adequate. -/
theorem should_push_ge_false (p t prev : ℚ) (h : t ≤ p) :
    should_push p t prev = false := by
  unfold should_push
  rw [if_pos h]

/-- Witness for C4 at the exact-equality edge current = threshold = 1. -/
theorem should_push_ge_false_w :
    (1 : ℚ) ≤ 1 ∧ should_push 1 1 0 = false :=
  ⟨by decide, should_push_ge_false 1 1 0 (by decide)⟩

/-- C5: with previous seeded at 1.0 and any threshold in (0, 1], every
current strictly below the threshold triggers an alert. -/
theorem should_push_fresh (p t : ℚ) (h0 : 0 < t) (h1 : t ≤ 1) (h : p < t) :
    should_push p t 1 = true := by
  unfold should_push
  rw [if_neg (not_le.mpr h), decide_eq_true_iff]
  have hp : p * 100 < 100 := by nlinarith
  have h100 : ⌊p * 100⌋ < 100 := Int.floor_lt.mpr (by exact_mod_cast hp)
  have : ⌊(1 : ℚ) * 100⌋ = 100 := by norm_num
  omega

/-- Witness for C5 at threshold = 1, current = 0. -/
theorem should_push_fresh_w :
    (0 : ℚ) < 1 ∧ (1 : ℚ) ≤ 1 ∧ (0 : ℚ) < 1 ∧
      should_push 0 1 1 = true :=
  ⟨by decide, by decide, by decide,
    should_push_fresh 0 1 (by decide) (by decide) (by decide)⟩

/-- Helper: a cycle whose read fails changes nothing and reaches neither
push nor the sleep. -/
theorem loopStep_read_error (t prev : ℚ) (e : String) (pr : Except String Unit) :
    loopStep t prev ⟨Except.error e, pr⟩ = ⟨prev, false, false⟩ := rfl

/-- Helper: full description of a cycle whose read succeeds. -/
theorem loopStep_read_ok (t prev p : ℚ) (pr : Except String Unit) :
    loopStep t prev ⟨Except.ok p, pr⟩ =
      if should_push p t prev = true then
        match pr with
        | Except.ok _ => ⟨p, true, true⟩
        | Except.error _ => ⟨prev, true, true⟩
      else ⟨p, true, false⟩ := by
  cases pr with
  | ok u =>
    by_cases h : should_push p t prev = true <;>
      simp [loopStep, check_disk_usage, h]
  | error e =>
    by_cases h : should_push p t prev = true <;>
      simp [loopStep, check_disk_usage, h]

/-- Helper: with threshold 0.1 and previous 1.0, a current ratio of 0.09
triggers the alert decision. -/
theorem should_push_nine_hundredths :
    should_push (9/100) (1/10) 1 = true := by
  unfold should_push
  rw [if_neg (by norm_num : ¬((9/100 : ℚ) ≥ 1/10))]
  simp only [decide_eq_true_eq]
  norm_num

/-- C1 counterexample: with threshold 0.1 and previous 1.0, a successful
read of 0.09 followed by a failed delivery leaves previous at 1.0 — the
current ratio 0.09 is not recorded as the new previous value. -/
theorem previous_not_updated_on_push_fail :
    (loopStep (1/10) 1 ⟨Except.ok (9/100), Except.error "send failed"⟩).previous = 1 ∧
      (1 : ℚ) ≠ 9/100 := by
  constructor
  · rw [loopStep_read_ok]
    rw [if_pos should_push_nine_hundredths]
  · norm_num

/-- C1 (amended): on a successful read, previous is set to the current
ratio exactly when the per-cycle check succeeds (no alert needed, or the
alert was delivered); when the Notifier fails to deliver, previous is
left unchanged, so the same decision will be re-evaluated next cycle. -/
theorem previous_update_on_ok_read (t prev p : ℚ) (pr : Except String Unit) :
    (loopStep t prev ⟨Except.ok p, pr⟩).previous =
      if should_push p t prev = true then
        (match pr with
          | Except.ok _ => p
          | Except.error _ => prev)
      else p := by
  rw [loopStep_read_ok]
  by_cases h : should_push p t prev = true
  · rw [if_pos h, if_pos h]
    cases pr <;> rfl
  · rw [if_neg h, if_neg h]

/-- C2: at a concrete failing read, the cycle invokes no push and leaves
previous unchanged, but it also never reaches the sleep: the `continue`
on line 106 of main.rs bypasses the wait step on line 118, so the loop
retries the read immediately instead of waiting for the poll interval. -/
theorem read_fail_cycle_eval :
    loopStep treshold 1 ⟨Except.error "Unable to find root mount", Except.ok ()⟩ =
      ⟨1, false, false⟩ := rfl

/-- C6 counterexample: a successful read of 0.09 whose delivery fails,
then a failed read. The failed-read cycle leaves previous unchanged, yet
previous (1.0) is not the last successfully observed ratio (0.09). -/
theorem stale_previous_cex :
    run (1/10) 1
        [⟨Except.ok (9/100), Except.error "send failed"⟩,
          ⟨Except.error "mount gone", Except.ok ()⟩] = 1 ∧
      okReads
        [⟨Except.ok (9/100), Except.error "send failed"⟩,
          ⟨Except.error "mount gone", Except.ok ()⟩] = [9/100] ∧
      (1 : ℚ) ≠ 9/100 := by
  refine ⟨?_, rfl, by norm_num⟩
  have h1 : (loopStep (1/10) 1 ⟨Except.ok (9/100), Except.error "send failed"⟩).previous = 1 := by
    rw [loopStep_read_ok]
    rw [if_pos should_push_nine_hundredths]
  show run (1/10) (loopStep (1/10) 1 ⟨Except.ok (9/100), Except.error "send failed"⟩).previous
      [⟨Except.error "mount gone", Except.ok ()⟩] = 1
  rw [h1]
  rfl

/-- C6 (amended): a cycle whose read fails leaves the retained previous
ratio unchanged, so across any run the retained ratio is always either
the starting seed or one of the successfully observed ratios — though
not necessarily the most recent one, since a successfully read ratio
whose delivery fails is not recorded. -/
theorem failed_read_frame (t : ℚ) :
    (∀ (prev : ℚ) (e : String) (pr : Except String Unit),
        (loopStep t prev ⟨Except.error e, pr⟩).previous = prev) ∧
    (∀ (inputs : List CycleInput) (prev : ℚ),
        run t prev inputs = prev ∨ run t prev inputs ∈ okReads inputs) := by
  constructor
  · intro prev e pr
    rfl
  · intro inputs
    induction inputs with
    | nil => intro prev; exact Or.inl rfl
    | cons i is ih =>
      intro prev
      obtain ⟨r, pr⟩ := i
      cases r with
      | error e =>
        have hrun : run t prev (⟨Except.error e, pr⟩ :: is) = run t prev is := rfl
        have hok : okReads (⟨Except.error e, pr⟩ :: is) = okReads is := rfl
        rw [hrun, hok]
        exact ih prev
      | ok p =>
        have hrun : run t prev (⟨Except.ok p, pr⟩ :: is) =
            run t (loopStep t prev ⟨Except.ok p, pr⟩).previous is := rfl
        have hok : okReads (⟨Except.ok p, pr⟩ :: is) = p :: okReads is := rfl
        have hcases : (loopStep t prev ⟨Except.ok p, pr⟩).previous = p ∨
            (loopStep t prev ⟨Except.ok p, pr⟩).previous = prev := by
          rw [loopStep_read_ok]
          by_cases h : should_push p t prev = true
          · rw [if_pos h]
            cases pr with
            | ok u => exact Or.inl rfl
            | error e => exact Or.inr rfl
          · rw [if_neg h]
            exact Or.inl rfl
        rw [hrun, hok]
        rcases hcases with h1 | h1
        · rw [h1]
          rcases ih p with h2 | h2
          · exact Or.inr (by rw [h2]; exact List.mem_cons_self _ _)
          · exact Or.inr (List.mem_cons_of_mem _ h2)
        · rw [h1]
          rcases ih prev with h2 | h2
          · exact Or.inl h2
          · exact Or.inr (List.mem_cons_of_mem _ h2)

/-- C7: whenever should_push is false, check_disk_usage does not invoke
push and returns success carrying the input ratio unchanged, whatever
outcome push would have had — so a non-alerting cycle cannot produce a
delivery error. -/
theorem check_no_push (p t prev : ℚ) (pr : Except String Unit)
    (h : should_push p t prev = false) :
    check_disk_usage p t prev pr = ⟨Except.ok p, false⟩ := by
  unfold check_disk_usage
  rw [if_neg]
  rw [h]
  exact Bool.false_ne_true

/-- Witness for C7 at ratio 1, threshold 1, previous 0, with a push
outcome that would have been an error. -/
theorem check_no_push_w :
    should_push 1 1 0 = false ∧
      check_disk_usage 1 1 0 (Except.error "boom") = ⟨Except.ok 1, false⟩ :=
  ⟨by decide, check_no_push 1 1 0 (Except.error "boom") (by decide)⟩

/-- C8: push succeeds exactly when the token is present and the send of
the built message returns a response with status OK (a missing token, a
transport failure and a non-OK status each give an error of the same
String kind); the message title is fixed and the body formats the
percentage times 100 to two decimal places. -/
theorem push_contract (w : PushWorld) (p : ℚ) :
    (push w p = Except.ok () ↔
      (∃ s, w.token = some s) ∧
        ∃ r, w.send (buildMessage p) = Except.ok r ∧ r.status = statusOK) ∧
    (buildMessage p).title = "Low disk space" ∧
    (buildMessage (923/10000)).body = "Only 9.23% left!" := by
  refine ⟨?_, rfl, ?_⟩
  · unfold push
    cases htok : w.token with
    | none => simp
    | some s =>
      cases hs : w.send (buildMessage p) with
      | error e => simp [hs]
      | ok r =>
        by_cases hst : r.status = statusOK
        · simp [hs, hst]
        · simp [hs, hst]
  · have hr : round ((923/10000 : ℚ) * 100 * 100) = 923 := by
      norm_num [round_eq]
    show "Only " ++ format2 ((923/10000 : ℚ) * 100) ++ "% left!" = "Only 9.23% left!"
    unfold format2
    rw [hr]
    rfl

/-- C9: the root-mount ratio is computed as avail / total with no guard
on a zero total: it lies in [0, 1] under the precondition 0 < total and
avail ≤ total, a division outside that precondition can exceed 1, and a
root mount reporting total = 0 yields a non-numeric value wrapped in Ok
rather than an Error. -/
theorem disk_usage_ratio_props :
    (∀ a t : Nat, 0 < t → a ≤ t →
        ∃ q, u64div a t = FpVal.val q ∧ 0 ≤ q ∧ q ≤ 1) ∧
    u64div 2 1 = FpVal.val 2 ∧ ¬((2 : ℚ) ≤ 1) ∧
    disk_usage (Except.ok [⟨"/", 0, 0⟩]) = Except.ok FpVal.nan := by
  refine ⟨?_, by norm_num [u64div], by norm_num, rfl⟩
  intro a t ht ha
  have ht' : (0 : ℚ) < t := by exact_mod_cast ht
  refine ⟨(a : ℚ) / t, ?_, ?_, ?_⟩
  · unfold u64div
    rw [if_neg (Nat.pos_iff_ne_zero.mp ht)]
  · positivity
  · rw [div_le_one ht']
    exact_mod_cast ha

/-- Witness for C9 at avail = 1, total = 2. -/
theorem disk_usage_ratio_props_w :
    0 < 2 ∧ 1 ≤ 2 ∧ ∃ q, u64div 1 2 = FpVal.val q ∧ 0 ≤ q ∧ q ≤ 1 :=
  ⟨by decide, by decide, disk_usage_ratio_props.1 1 2 (by decide) (by decide)⟩

/-- C10: the configuration is the fixed constants path "/", threshold
0.1 and a 300-second poll interval, and every iteration of a run uses
the same threshold constant. -/
theorem config_fixed :
    monitored_path = "/" ∧ treshold = 1/10 ∧ sleep_time_secs = 300 ∧
      (∀ (prev : ℚ) (i : CycleInput) (is : List CycleInput),
        run treshold prev (i :: is) =
          run treshold (loopStep treshold prev i).previous is) :=
  ⟨rfl, by norm_num [treshold], rfl, fun _ _ _ => rfl⟩
